import Mathlib

/-!
Shallow embedding of the `audio-capture` crate's Windows capture engine
(`src/lib.rs`, `src/win/common.rs`, `src/win/capture.rs`).

Native (WASAPI/COM) calls are modelled by an explicit "world" of call
outcomes (HRESULT values and returned data); the functions translated from
the source are parametrised by such a world and additionally return the
resource-acquisition / release / call traces that the real code performs,
so that resource-safety and ordering claims can be stated.
-/

namespace AC

/-! ### `src/win/common.rs` -/

/-- HRESULT success code `S_OK` from `winapi::shared::winerror`. -/
def S_OK : Int := 0

/-- Structure `pub struct WinError(pub i32)` from `src/win/common.rs`. -/
structure WinError where
  code : Int
deriving DecidableEq, Repr

/-- Function `winapi_result` from `src/win/common.rs`: `Ok(())` when the
HRESULT is `S_OK`, otherwise `Err(WinError(hresult))`. -/
def winapi_result (hresult : Int) : Except WinError Unit :=
  if hresult = S_OK then Except.ok () else Except.error ⟨hresult⟩

/-- Structure `struct Guid(u32, u16, u16, [u8; 8])` from `src/win/common.rs`. -/
structure Guid where
  data1 : Nat
  data2 : Nat
  data3 : Nat
  data4 : List Nat
deriving DecidableEq, Repr

/-- Constant `DATAFORMAT_SUBTYPE_PCM` (= `KSDATAFORMAT_SUBTYPE_PCM`,
`00000001-0000-0010-8000-00aa00389b71`). -/
def DATAFORMAT_SUBTYPE_PCM : Guid :=
  ⟨0x00000001, 0x0000, 0x0010, [0x80, 0x00, 0x00, 0xaa, 0x00, 0x38, 0x9b, 0x71]⟩

/-- Constant `DATAFORMAT_SUBTYPE_IEEE_FLOAT` (= `KSDATAFORMAT_SUBTYPE_IEEE_FLOAT`,
`00000003-0000-0010-8000-00aa00389b71`). -/
def DATAFORMAT_SUBTYPE_IEEE_FLOAT : Guid :=
  ⟨0x00000003, 0x0000, 0x0010, [0x80, 0x00, 0x00, 0xaa, 0x00, 0x38, 0x9b, 0x71]⟩

/-! ### `src/lib.rs` -/

/-- Enumeration `pub enum SampleFormat` (Int8, Int16, Float32) from `src/lib.rs`. -/
inductive SampleFormat where
  | Int8
  | Int16
  | Float32
deriving DecidableEq, Repr

/-- Method `SampleFormat::bits_per_sample` from `src/lib.rs`. -/
def SampleFormat.bits_per_sample : SampleFormat → Nat
  | .Int8 => 8
  | .Int16 => 16
  | .Float32 => 32

/-- Structure `pub struct Format` from `src/lib.rs` (`channels: u16`,
`sample_rate: u32`, `sample_format: SampleFormat`). -/
structure Format where
  channels : Nat
  sample_rate : Nat
  sample_format : SampleFormat
deriving DecidableEq, Repr

/-! ### The native mix-format descriptor (`WAVEFORMATEX` /
`WAVEFORMATEXTENSIBLE` from `winapi::shared::mmreg`) -/

/-- Constant `WAVE_FORMAT_PCM` (mmreg.h). -/
def WAVE_FORMAT_PCM : Nat := 0x0001

/-- Constant `WAVE_FORMAT_IEEE_FLOAT` (mmreg.h). -/
def WAVE_FORMAT_IEEE_FLOAT : Nat := 0x0003

/-- Constant `WAVE_FORMAT_EXTENSIBLE` (mmreg.h). -/
def WAVE_FORMAT_EXTENSIBLE : Nat := 0xFFFE

/-- Layout size `size_of::<WAVEFORMATEX>()`: the packed base descriptor is
18 bytes (2+2+4+4+2+2+2). -/
def sizeof_WAVEFORMATEX : Nat := 18

/-- Layout size `size_of::<WAVEFORMATEXTENSIBLE>()`: the packed extended
descriptor is 40 bytes (18 + 2 + 4 + 16). -/
def sizeof_WAVEFORMATEXTENSIBLE : Nat := 40

/-- The native mix-format descriptor, as the memory the OS hands back:
the `WAVEFORMATEX` fields plus the `WAVEFORMATEXTENSIBLE` extension fields
(which the code only reads when the tag/size check passes). -/
structure WaveFormat where
  wFormatTag : Nat
  nChannels : Nat
  nSamplesPerSec : Nat
  nAvgBytesPerSec : Nat
  nBlockAlign : Nat
  wBitsPerSample : Nat
  cbSize : Nat
  wValidBitsPerSample : Nat
  dwChannelMask : Nat
  subFormat : Guid
deriving DecidableEq, Repr

/-- Structure `pub struct UnknownFormat` from `src/win/capture.rs`. -/
structure UnknownFormat where
deriving DecidableEq, Repr

/-- Method `AudioCapture::format` from `src/win/capture.rs`, as a function of the
stored mix-format descriptor: the `match (format_tag, sample_bitsize)`
chain, with the extensible arm guarded by
`size_of::<WAVEFORMATEXTENSIBLE>() - size_of::<WAVEFORMATEX>() == struct_size`. -/
def format (wf : WaveFormat) : Except UnknownFormat Format :=
  let sample_bitsize := wf.wBitsPerSample
  let struct_size := wf.cbSize
  let format_tag := wf.wFormatTag
  let sample_format : Option SampleFormat :=
    if format_tag = WAVE_FORMAT_PCM ∧ sample_bitsize = 8 then
      some SampleFormat.Int8
    else if format_tag = WAVE_FORMAT_PCM ∧ sample_bitsize = 16 then
      some SampleFormat.Int16
    else if format_tag = WAVE_FORMAT_IEEE_FLOAT ∧ sample_bitsize = 32 then
      some SampleFormat.Float32
    else if format_tag = WAVE_FORMAT_EXTENSIBLE ∧
        sizeof_WAVEFORMATEXTENSIBLE - sizeof_WAVEFORMATEX = struct_size then
      let format_guid := wf.subFormat
      if format_guid = DATAFORMAT_SUBTYPE_PCM ∧ sample_bitsize = 8 then
        some SampleFormat.Int8
      else if format_guid = DATAFORMAT_SUBTYPE_PCM ∧ sample_bitsize = 16 then
        some SampleFormat.Int16
      else if format_guid = DATAFORMAT_SUBTYPE_IEEE_FLOAT ∧ sample_bitsize = 32 then
        some SampleFormat.Float32
      else
        none
    else
      none
  match sample_format with
  | none => Except.error ⟨⟩
  | some sf => Except.ok ⟨wf.nChannels, wf.nSamplesPerSec, sf⟩

/-! Spec-side rendering of §4.1's resolution rules, for the refinement
claim about `format`.  Each numbered rule is its own partial resolver and
the rules are consulted in order. -/

/-- Spec §4.1 rule 1: the tag directly names PCM; 8 bits gives `Int8`,
16 bits gives `Int16`. -/
def ruleDirectPcm (wf : WaveFormat) : Option SampleFormat :=
  if wf.wFormatTag = WAVE_FORMAT_PCM then
    if wf.wBitsPerSample = 8 then some SampleFormat.Int8
    else if wf.wBitsPerSample = 16 then some SampleFormat.Int16
    else none
  else none

/-- Spec §4.1 rule 2: the tag directly names IEEE-float; 32 bits gives
`Float32`. -/
def ruleDirectIeee (wf : WaveFormat) : Option SampleFormat :=
  if wf.wFormatTag = WAVE_FORMAT_IEEE_FLOAT ∧ wf.wBitsPerSample = 32 then
    some SampleFormat.Float32
  else none

/-- Spec §4.1 rule 3: the tag is the extensible marker and the declared
trailing-structure size exactly matches the layout-size difference between
the extended and base descriptors; resolve by the embedded sub-format
identifier with the same bit-width rules. -/
def ruleExtensible (wf : WaveFormat) : Option SampleFormat :=
  if wf.wFormatTag = WAVE_FORMAT_EXTENSIBLE ∧
      wf.cbSize = sizeof_WAVEFORMATEXTENSIBLE - sizeof_WAVEFORMATEX then
    if wf.subFormat = DATAFORMAT_SUBTYPE_PCM then
      if wf.wBitsPerSample = 8 then some SampleFormat.Int8
      else if wf.wBitsPerSample = 16 then some SampleFormat.Int16
      else none
    else if wf.subFormat = DATAFORMAT_SUBTYPE_IEEE_FLOAT then
      if wf.wBitsPerSample = 32 then some SampleFormat.Float32
      else none
    else none
  else none

/-- Spec §4.1, all four rules in order: the first applicable of rules 1–3,
and rule 4 (`UnknownFormat`) when none applies. -/
def specResolve (wf : WaveFormat) : Except UnknownFormat Format :=
  match (ruleDirectPcm wf).orElse (fun _ => (ruleDirectIeee wf).orElse (fun _ => ruleExtensible wf)) with
  | some sf => Except.ok ⟨wf.nChannels, wf.nSamplesPerSec, sf⟩
  | none => Except.error ⟨⟩

/-! ### `AudioCapture` and `AudioCapture::init` (`src/win/capture.rs`) -/

/-- Structure `pub struct AudioCapture` from `src/win/capture.rs`.  The raw
interface pointers are modelled as opaque handle values. -/
structure AudioCaptureState where
  buffer_frame_size : Nat
  wave_format : WaveFormat
  channels : Nat
  enumerator : Nat
  device : Nat
  client : Nat
  capture_client : Nat
  should_run_couninitalize_on_drop : Bool
deriving DecidableEq, Repr

/-- Reinterpretation of a `u64` value as an `i64` (the `as i64` cast in
`buffer_duration.as_secs() as i64`): two's-complement wraparound. -/
def u64_as_i64 (n : Nat) : Int :=
  let m : Nat := n % 2 ^ 64
  if m < 2 ^ 63 then (m : Int) else (m : Int) - 2 ^ 64

/-- Rust `i64::checked_mul`: the product, unless it falls outside the
signed 64-bit range. -/
def i64_checked_mul (a b : Int) : Option Int :=
  if -(2 ^ 63) ≤ a * b ∧ a * b < 2 ^ 63 then some (a * b) else none

/-- Rust `i64::checked_add`: the sum, unless it falls outside the signed
64-bit range. -/
def i64_checked_add (a b : Int) : Option Int :=
  if -(2 ^ 63) ≤ a + b ∧ a + b < 2 ^ 63 then some (a + b) else none

/-- The duration conversion in `AudioCapture::init` (capture.rs lines
90–95, commented `// 100ns unit`):
`(secs as i64).checked_mul(100_000_000_000)? + (subsec_nanos as i64 * 100)`,
where `none` models the `.expect("duration math overflow")` panic. -/
def duration_to_native_ticks (secs subsec_nanos : Nat) : Option Int :=
  (i64_checked_mul (u64_as_i64 secs) 100000000000).bind fun a =>
    i64_checked_add a ((subsec_nanos : Int) * 100)

/-- Total nanoseconds of a Rust `Duration` with the given seconds and
sub-second nanoseconds (`subsec_nanos < 10^9` is the `Duration` invariant). -/
def totalNanoseconds (secs subsec_nanos : Nat) : Nat :=
  secs * 1000000000 + subsec_nanos

/-- Native resources acquired by `AudioCapture::init`, in acquisition
order: the COM subsystem, the device enumerator, the endpoint device, the
audio client, the mix-format allocation, the capture client. -/
inductive Resource where
  | comInit
  | enumerator
  | device
  | client
  | mixFormat
  | captureClient
deriving DecidableEq, Repr

/-- Outcome of `AudioCapture::init`: a constructed instance, a typed
`WinError` returned with `?`, or a panic (`unwrap` / `expect`). -/
inductive InitResult where
  | ok (s : AudioCaptureState)
  | err (e : WinError)
  | panicked (msg : String)
deriving DecidableEq, Repr

/-- One possible behaviour of the native layer during `init`: the HRESULT
of each native call in program order plus the data a successful call
writes through its out-parameters. -/
structure InitWorld where
  coInitializeHr : Int
  coCreateInstanceHr : Int
  getDefaultAudioEndpointHr : Int
  activateHr : Int
  getMixFormatHr : Int
  initializeHr : Int
  getBufferSizeHr : Int
  getServiceHr : Int
  mixFormat : WaveFormat
  bufferFrameSize : Nat
  enumeratorPtr : Nat
  devicePtr : Nat
  clientPtr : Nat
  captureClientPtr : Nat
deriving DecidableEq, Repr

/-- What a run of `AudioCapture::init` did: its outcome, the native
resources it acquired, the native resources it released before returning,
and the duration argument passed to the client-initialize call (if that
call was reached). -/
structure InitEffect where
  outcome : InitResult
  acquired : List Resource
  released : List Resource
  initializeArg : Option Int
deriving DecidableEq, Repr

/-- Method `AudioCapture::init` from `src/win/capture.rs` (lines 50–133),
step by step against a native world.  `CoCreateInstance`,
`GetDefaultAudioEndpoint` and `Activate` failures propagate with `?`;
`GetMixFormat`, `Initialize`, `GetBufferSize` and `GetService` failures hit
`.unwrap()` and panic.  No error path releases anything. -/
def init (w : InitWorld) (secs subsec_nanos : Nat) : InitEffect :=
  let should_run :=
    match winapi_result w.coInitializeHr with
    | Except.ok _ => true
    | Except.error _ => false
  let acq0 := if w.coInitializeHr = S_OK then [Resource.comInit] else []
  match winapi_result w.coCreateInstanceHr with
  | Except.error e => ⟨InitResult.err e, acq0, [], none⟩
  | Except.ok _ =>
    let acq1 := acq0 ++ [Resource.enumerator]
    match winapi_result w.getDefaultAudioEndpointHr with
    | Except.error e => ⟨InitResult.err e, acq1, [], none⟩
    | Except.ok _ =>
      let acq2 := acq1 ++ [Resource.device]
      match winapi_result w.activateHr with
      | Except.error e => ⟨InitResult.err e, acq2, [], none⟩
      | Except.ok _ =>
        let acq3 := acq2 ++ [Resource.client]
        match winapi_result w.getMixFormatHr with
        | Except.error _ =>
          ⟨InitResult.panicked "called Result::unwrap on an Err value", acq3, [], none⟩
        | Except.ok _ =>
          let acq4 := acq3 ++ [Resource.mixFormat]
          let channels := w.mixFormat.nChannels
          match duration_to_native_ticks secs subsec_nanos with
          | none => ⟨InitResult.panicked "duration math overflow", acq4, [], none⟩
          | some dur =>
            match winapi_result w.initializeHr with
            | Except.error _ =>
              ⟨InitResult.panicked "called Result::unwrap on an Err value", acq4, [], some dur⟩
            | Except.ok _ =>
              match winapi_result w.getBufferSizeHr with
              | Except.error _ =>
                ⟨InitResult.panicked "called Result::unwrap on an Err value", acq4, [], some dur⟩
              | Except.ok _ =>
                match winapi_result w.getServiceHr with
                | Except.error _ =>
                  ⟨InitResult.panicked "called Result::unwrap on an Err value", acq4, [], some dur⟩
                | Except.ok _ =>
                  ⟨InitResult.ok
                    { buffer_frame_size := w.bufferFrameSize
                      wave_format := w.mixFormat
                      channels := channels
                      enumerator := w.enumeratorPtr
                      device := w.devicePtr
                      client := w.clientPtr
                      capture_client := w.captureClientPtr
                      should_run_couninitalize_on_drop := should_run },
                    acq4 ++ [Resource.captureClient], [], some dur⟩

/-! ### `Drop for AudioCapture` (`src/win/capture.rs` lines 295–309) -/

/-- The release actions `Drop::drop` can perform, in the order the code
names them. -/
inductive ReleaseEvent where
  | freeWaveFormat
  | releaseCaptureClient
  | releaseClient
  | releaseDevice
  | releaseEnumerator
  | coUninit
deriving DecidableEq, Repr

/-- Implementation `Drop for AudioCapture` (capture.rs lines 295–309): the
sequence of release calls it performs.  `CoTaskMemFree(self.wave_format)`
comes first, then the four interface `Release` calls, then conditionally
`CoUninitialize`. -/
def drop (s : AudioCaptureState) : List ReleaseEvent :=
  [ReleaseEvent.freeWaveFormat, ReleaseEvent.releaseCaptureClient,
    ReleaseEvent.releaseClient, ReleaseEvent.releaseDevice,
    ReleaseEvent.releaseEnumerator] ++
  (if s.should_run_couninitalize_on_drop then [ReleaseEvent.coUninit] else [])

/-- Spec-side release order claimed in §3 / C4: the exact reverse of the
acquisition order — capture-client, then mix-format, then client, then
device, then enumerator, then (conditionally) the environment-level
uninitialize. -/
def specReverseReleaseOrder (flag : Bool) : List ReleaseEvent :=
  [ReleaseEvent.releaseCaptureClient, ReleaseEvent.freeWaveFormat,
    ReleaseEvent.releaseClient, ReleaseEvent.releaseDevice,
    ReleaseEvent.releaseEnumerator] ++
  (if flag then [ReleaseEvent.coUninit] else [])

/-! ### Concrete worlds and states used by witnesses and counterexamples -/

/-- A representative extensible-float mix format (stereo, 48 kHz,
32-bit IEEE float). -/
def sampleWaveFormat : WaveFormat :=
  ⟨0xFFFE, 2, 48000, 384000, 8, 32, 22, 32, 3, DATAFORMAT_SUBTYPE_IEEE_FLOAT⟩

/-- A native world in which every call of `init` succeeds. -/
def wOk : InitWorld :=
  ⟨0, 0, 0, 0, 0, 0, 0, 0, sampleWaveFormat, 1056, 11, 12, 13, 14⟩

/-- The instance `init` constructs in the world `wOk`. -/
def stateOk : AudioCaptureState :=
  ⟨1056, sampleWaveFormat, 2, 11, 12, 13, 14, true⟩

/-- A native world in which `CoInitialize` succeeds (`S_OK`) and
`CoCreateInstance` then fails with `REGDB_E_CLASSNOTREG` (`0x80040154` as
an `i32`, i.e. `-2147221164`). -/
def wLeak : InitWorld :=
  ⟨0, -2147221164, 0, 0, 0, 0, 0, 0, sampleWaveFormat, 1056, 11, 12, 13, 14⟩

/-- A native world in which everything up to and including `Activate`
succeeds and `GetMixFormat` then fails (`E_OUTOFMEMORY`, `-2147024882`). -/
def wMixFail : InitWorld :=
  ⟨0, 0, 0, 0, -2147024882, 0, 0, 0, sampleWaveFormat, 1056, 11, 12, 13, 14⟩

/-! ### `AudioCapture::read_samples` (`src/win/capture.rs` lines 196–254) -/

/-- Buffer-quality bit flag `AUDCLNT_BUFFERFLAGS_DATA_DISCONTINUITY`. -/
def AUDCLNT_BUFFERFLAGS_DATA_DISCONTINUITY : Nat := 0x1

/-- Buffer-quality bit flag `AUDCLNT_BUFFERFLAGS_SILENT`. -/
def AUDCLNT_BUFFERFLAGS_SILENT : Nat := 0x2

/-- Buffer-quality bit flag `AUDCLNT_BUFFERFLAGS_TIMESTAMP_ERROR`. -/
def AUDCLNT_BUFFERFLAGS_TIMESTAMP_ERROR : Nat := 0x4

/-- Structure `pub struct Info` from `src/win/capture.rs`. -/
structure Info where
  is_silent : Bool
  data_discontinuity : Bool
  timestamp_error : Bool
deriving DecidableEq, Repr

/-- Enumeration `pub enum ReadSamplesError<E>` from `src/win/capture.rs`
(the source's second constructor is also named `WinError`; Lean needs a
distinct name). -/
inductive ReadSamplesError (ε : Type) where
  | E (e : ε)
  | winError (e : WinError)
deriving DecidableEq, Repr

/-- Decidable equality for `Except`, for evaluating concrete runs. -/
instance {ε α : Type} [DecidableEq ε] [DecidableEq α] : DecidableEq (Except ε α) := fun x y =>
  match x, y with
  | Except.ok u, Except.ok v =>
    if h : u = v then isTrue (by rw [h]) else isFalse (by simp [h])
  | Except.error u, Except.error v =>
    if h : u = v then isTrue (by rw [h]) else isFalse (by simp [h])
  | Except.ok _, Except.error _ => isFalse (by simp)
  | Except.error _, Except.ok _ => isFalse (by simp)

/-- One native audio packet as the device holds it: its size in frames
(what `GetNextPacketSize` / `GetBuffer` report), its quality bit flags,
and the 32-bit sample words at the buffer pointer (indexed memory, as
`slice::from_raw_parts` reads it). -/
structure Packet where
  frames : Nat
  flags : Nat
  buffer : Nat → Nat

/-- Native-layer behaviour for one loop iteration of `read_samples`: the
packet at the head of the queue plus the HRESULTs of the `GetBuffer`,
`ReleaseBuffer` and trailing `GetNextPacketSize` calls of that iteration. -/
structure PacketStep where
  packet : Packet
  getBufferHr : Int
  releaseBufferHr : Int
  nextSizeHr : Int

/-- Native-layer behaviour for a whole `read_samples` call: the HRESULT of
the initial `GetNextPacketSize` plus the queue of pending packets. -/
structure CaptureWorld where
  firstSizeHr : Int
  steps : List PacketStep

/-- The sample slice `read_samples` builds for a packet:
`slice::from_raw_parts(buffer as *mut f32, buffer_size * channels)` —
the first `frames * channels` 32-bit words at the buffer pointer. -/
def packetSlice (channels : Nat) (p : Packet) : List Nat :=
  (List.range (p.frames * channels)).map p.buffer

/-- The `Info` record `read_samples` builds from a packet's bit flags. -/
def infoOfFlags (flags : Nat) : Info :=
  ⟨(flags &&& AUDCLNT_BUFFERFLAGS_SILENT) != 0,
    (flags &&& AUDCLNT_BUFFERFLAGS_DATA_DISCONTINUITY) != 0,
    (flags &&& AUDCLNT_BUFFERFLAGS_TIMESTAMP_ERROR) != 0⟩

/-- Observable actions of a `read_samples` run: a callback invocation
(with the arguments passed and the result the callback returned) and a
`ReleaseBuffer` call (with the frame count passed). -/
inductive ReadEvent (ε : Type) where
  | callback (data : List Nat) (info : Info) (result : Except ε Unit)
  | release (frames : Nat)
deriving DecidableEq, Repr

/-- The `while packet_length > 0` loop of `AudioCapture::read_samples`
(capture.rs lines 208–252), one `PacketStep` per iteration: `GetBuffer`
failures propagate with `?` before the callback runs; the callback result
is held in `r` while `ReleaseBuffer` is called (its failure propagates
with `?` and supersedes `r`); then `r?` propagates a callback error; then
the trailing `GetNextPacketSize` refreshes `packet_length`. -/
def read_samples_loop (channels : Nat) (f : List Nat → Info → Except ε Unit) :
    List PacketStep → Except (ReadSamplesError ε) Unit × List (ReadEvent ε)
  | [] => (Except.ok (), [])
  | step :: rest =>
    if step.packet.frames = 0 then (Except.ok (), [])
    else
      match winapi_result step.getBufferHr with
      | Except.error e => (Except.error (ReadSamplesError.winError e), [])
      | Except.ok _ =>
        let data := packetSlice channels step.packet
        let info := infoOfFlags step.packet.flags
        let r : Except (ReadSamplesError ε) Unit :=
          match f data info with
          | Except.ok _ => Except.ok ()
          | Except.error e => Except.error (ReadSamplesError.E e)
        let ev : List (ReadEvent ε) :=
          [ReadEvent.callback data info (f data info),
            ReadEvent.release step.packet.frames]
        match winapi_result step.releaseBufferHr with
        | Except.error e => (Except.error (ReadSamplesError.winError e), ev)
        | Except.ok _ =>
          match r with
          | Except.error e => (Except.error e, ev)
          | Except.ok _ =>
            match winapi_result step.nextSizeHr with
            | Except.error e => (Except.error (ReadSamplesError.winError e), ev)
            | Except.ok _ =>
              let rec_result := read_samples_loop channels f rest
              (rec_result.1, ev ++ rec_result.2)

/-- Method `AudioCapture::read_samples` from `src/win/capture.rs` (lines
196–254): the initial `GetNextPacketSize` (whose failure propagates with
`?`) followed by the drain loop, using the instance's stored channel
count. -/
def read_samples (s : AudioCaptureState) (w : CaptureWorld)
    (f : List Nat → Info → Except ε Unit) :
    Except (ReadSamplesError ε) Unit × List (ReadEvent ε) :=
  match winapi_result w.firstSizeHr with
  | Except.error e => (Except.error (ReadSamplesError.winError e), [])
  | Except.ok _ => read_samples_loop s.channels f w.steps

/-- Predicate on a `read_samples` event trace: every callback invocation
is immediately followed by the `ReleaseBuffer` call for its packet. -/
def callbackFollowedByRelease {ε : Type} : List (ReadEvent ε) → Bool
  | [] => true
  | ReadEvent.callback _ _ _ :: ReadEvent.release _ :: rest =>
    callbackFollowedByRelease rest
  | ReadEvent.callback _ _ _ :: _ => false
  | ReadEvent.release _ :: rest => callbackFollowedByRelease rest

/-- A one-frame packet with no quality flags and an all-zero buffer. -/
def pkt1 : Packet := ⟨1, 0, fun _ => 0⟩

/-- A capture world with a single pending packet whose `ReleaseBuffer`
call fails with `S_FALSE = 1`; all other native calls succeed. -/
def wRelFail : CaptureWorld := ⟨0, [⟨pkt1, 0, 1, 0⟩]⟩

/-- A capture world with a single pending packet and every native call
succeeding. -/
def wCbErr : CaptureWorld := ⟨0, [⟨pkt1, 0, 0, 0⟩]⟩

/-- A callback that always fails (with the unit error). -/
def cbFail : List Nat → Info → Except Unit Unit := fun _ _ => Except.error ()

/-- A capture world with two pending packets (3 frames with the silent
flag, then 1 frame with discontinuity+timestamp-error flags), every
native call succeeding. -/
def wDrain : CaptureWorld :=
  ⟨0, [⟨⟨3, 2, fun i => i⟩, 0, 0, 0⟩, ⟨⟨1, 5, fun _ => 9⟩, 0, 0, 0⟩]⟩

/-! ### `AudioCapture::format` as a method on the instance state -/

/-- Method `AudioCapture::format` as the source invokes it on `&self`: it
reads only the stored mix-format descriptor, issues no native API call
(the returned call trace is the list of native calls performed) and cannot
mutate the borrowed instance, which is returned unchanged. -/
def format_method (s : AudioCaptureState) :
    Except UnknownFormat Format × AudioCaptureState × List String :=
  (format s.wave_format, s, [])

end AC

namespace AC

/-! ### Theorems: `bits_per_sample`, `winapi_result`, `format` -/

/-- C9: `SampleFormat::bits_per_sample` is a pure total function with the
fixed mapping `Int8 ↦ 8`, `Int16 ↦ 16`, `Float32 ↦ 32`. -/
theorem bits_per_sample_fixed_mapping :
    SampleFormat.Int8.bits_per_sample = 8 ∧
    SampleFormat.Int16.bits_per_sample = 16 ∧
    SampleFormat.Float32.bits_per_sample = 32 ∧
    ∀ sf : SampleFormat, sf.bits_per_sample = 8 ∨ sf.bits_per_sample = 16 ∨
      sf.bits_per_sample = 32 := by
  refine ⟨rfl, rfl, rfl, ?_⟩
  intro sf
  cases sf <;> simp [SampleFormat.bits_per_sample]

/-- The two known sub-format identifiers are distinct. -/
theorem guid_pcm_ne_ieee : DATAFORMAT_SUBTYPE_PCM ≠ DATAFORMAT_SUBTYPE_IEEE_FLOAT := by
  decide

/-- C5: `format` implements exactly the four ordered resolution rules of
spec §4.1 — it agrees with the rule-by-rule spec-side resolver on every
descriptor, returning `UnknownFormat` iff no rule applies. -/
theorem format_eq_specResolve (wf : WaveFormat) : format wf = specResolve wf := by
  unfold format specResolve ruleDirectPcm ruleDirectIeee ruleExtensible
  by_cases h1 : wf.wFormatTag = WAVE_FORMAT_PCM ∧ wf.wBitsPerSample = 8 <;>
    by_cases h2 : wf.wFormatTag = WAVE_FORMAT_PCM ∧ wf.wBitsPerSample = 16 <;>
    by_cases h3 : wf.wFormatTag = WAVE_FORMAT_IEEE_FLOAT ∧ wf.wBitsPerSample = 32 <;>
      simp_all [Option.orElse, guid_pcm_ne_ieee, guid_pcm_ne_ieee.symm] <;>
      split_ifs <;> simp_all [Option.orElse, guid_pcm_ne_ieee, guid_pcm_ne_ieee.symm]

/-! ### Theorems: `init`, `drop` -/

/-- Helper: on every successful `init`, the stored flag records whether the
`CoInitialize` call returned exactly `S_OK`. -/
theorem init_flag_eq (w : InitWorld) (secs nanos : Nat) (s : AudioCaptureState)
    (h : (init w secs nanos).outcome = InitResult.ok s) :
    s.should_run_couninitalize_on_drop = decide (w.coInitializeHr = S_OK) := by
  unfold init winapi_result at h
  cases hd : duration_to_native_ticks secs nanos <;>
    simp only [hd] at h <;> split_ifs at h <;> simp_all <;> (cases h; rfl)

/-- C1 (failing behaviour): with `CoInitialize` succeeding and
`CoCreateInstance` failing, `init` returns the typed error but has
acquired the COM subsystem and released nothing — a native resource
remains held; and with a failing `GetMixFormat`, `init` panics instead of
returning a typed error, again releasing none of the three handles
acquired before it. -/
theorem init_partial_failure_leaks :
    (init wLeak 0 0).outcome = InitResult.err ⟨-2147221164⟩ ∧
    (init wLeak 0 0).acquired = [Resource.comInit] ∧
    (init wLeak 0 0).released = [] ∧
    (init wMixFail 0 0).outcome =
      InitResult.panicked "called Result::unwrap on an Err value" ∧
    (init wMixFail 0 0).acquired =
      [Resource.comInit, Resource.enumerator, Resource.device, Resource.client] ∧
    (init wMixFail 0 0).released = [] := by
  decide

/-- C2 (failing behaviour): `init` passes
`secs * 10^11 + subsec_nanos * 100 = total_nanoseconds * 100` as the
native duration argument, not `total_nanoseconds / 100`; for a 1-second
buffer duration it passes `100_000_000_000` where the claim requires
`10_000_000`.  Overflow of the checked arithmetic does panic, but the
initial `as i64` cast silently truncates `secs ≥ 2^63`. -/
theorem init_duration_ticks_wrong :
    duration_to_native_ticks 1 0 = some 100000000000 ∧
    (init wOk 1 0).initializeArg = some 100000000000 ∧
    ((100000000000 : Int) ≠ ((totalNanoseconds 1 0 : Int) / 100)) ∧
    duration_to_native_ticks (2 ^ 62) 0 = none ∧
    (init wOk (2 ^ 62) 0).outcome = InitResult.panicked "duration math overflow" ∧
    duration_to_native_ticks (2 ^ 64 - 1) 0 = some (-100000000000) := by
  refine ⟨by decide, by decide, by decide, ?_, ?_, ?_⟩
  · decide
  · decide
  · decide

/-- C7: the constructed instance's single flag records whether this
instance's `CoInitialize` call returned `S_OK`, and teardown performs the
environment-level `CoUninitialize` if and only if that flag is set. -/
theorem init_flag_governs_couninit (w : InitWorld) (secs nanos : Nat)
    (s : AudioCaptureState) (h : (init w secs nanos).outcome = InitResult.ok s) :
    s.should_run_couninitalize_on_drop = decide (w.coInitializeHr = S_OK) ∧
    (ReleaseEvent.coUninit ∈ drop s ↔ s.should_run_couninitalize_on_drop = true) := by
  refine ⟨init_flag_eq w secs nanos s h, ?_⟩
  by_cases hf : s.should_run_couninitalize_on_drop <;> simp [drop, hf]

/-- Witness for C7 at the all-success world `wOk`. -/
theorem init_flag_governs_couninit_witness :
    stateOk.should_run_couninitalize_on_drop = decide (wOk.coInitializeHr = S_OK) ∧
    (ReleaseEvent.coUninit ∈ drop stateOk ↔
      stateOk.should_run_couninitalize_on_drop = true) :=
  init_flag_governs_couninit wOk 0 0 stateOk (by decide)

/-- C10: `winapi_result` is `Ok(())` iff the status code is exactly
`S_OK = 0`; every other code — including positive non-failure codes such
as `S_FALSE = 1` — becomes `Err(WinError(code))`; consequently a
successful `init` records `should_run_couninitalize_on_drop = true` iff
its `CoInitialize` returned exactly `S_OK`. -/
theorem winapi_result_ok_iff_s_ok :
    (∀ code : Int, winapi_result code = Except.ok () ↔ code = S_OK) ∧
    (∀ code : Int, code ≠ S_OK → winapi_result code = Except.error ⟨code⟩) ∧
    winapi_result 1 = Except.error ⟨1⟩ ∧
    (∀ (w : InitWorld) (secs nanos : Nat) (s : AudioCaptureState),
      (init w secs nanos).outcome = InitResult.ok s →
      s.should_run_couninitalize_on_drop = decide (w.coInitializeHr = S_OK)) := by
  refine ⟨?_, ?_, rfl, fun w secs nanos s h => init_flag_eq w secs nanos s h⟩
  · intro code
    unfold winapi_result
    split_ifs with hc <;> simp [hc]
  · intro code hc
    unfold winapi_result
    split_ifs <;> simp_all

/-- Witness for C10: the `S_FALSE` code `1` is an error, and the
all-success world records the flag. -/
theorem winapi_result_ok_iff_s_ok_witness :
    winapi_result 1 = Except.error ⟨1⟩ ∧
    stateOk.should_run_couninitalize_on_drop = decide (wOk.coInitializeHr = S_OK) :=
  ⟨winapi_result_ok_iff_s_ok.2.2.1,
    winapi_result_ok_iff_s_ok.2.2.2 wOk 0 0 stateOk (by decide)⟩

/-- C4 (counterexample): teardown does not release in the exact reverse of
acquisition order — `drop` frees the mix-format descriptor before
releasing the capture client, while the exact reverse order would release
the capture client first. -/
theorem drop_order_ne_exact_reverse :
    drop stateOk ≠ specReverseReleaseOrder stateOk.should_run_couninitalize_on_drop := by
  decide

/-- C4 (amended): teardown releases the handles in the fixed order
mix-format, capture-client, client, device, enumerator, then performs the
environment-level uninitialize iff the instance's flag is set; every
release appears at most once (so no handle is used after it has been
released). -/
theorem drop_release_order (s : AudioCaptureState) :
    drop s =
      [ReleaseEvent.freeWaveFormat, ReleaseEvent.releaseCaptureClient,
        ReleaseEvent.releaseClient, ReleaseEvent.releaseDevice,
        ReleaseEvent.releaseEnumerator] ++
      (if s.should_run_couninitalize_on_drop then [ReleaseEvent.coUninit] else []) ∧
    (drop s).Nodup ∧
    (ReleaseEvent.coUninit ∈ drop s ↔ s.should_run_couninitalize_on_drop = true) := by
  by_cases hf : s.should_run_couninitalize_on_drop <;> simp [drop, hf]

/-! ### Theorems: `read_samples` -/

/-- Helper: skipping a callback/release pair preserves the trace
predicate. -/
theorem callbackFollowedByRelease_pair {ε : Type} (d : List Nat) (i : Info)
    (r : Except ε Unit) (fr : Nat) (l : List (ReadEvent ε)) :
    callbackFollowedByRelease (ReadEvent.callback d i r :: ReadEvent.release fr :: l) =
      callbackFollowedByRelease l := rfl

/-- Helper: in every run of the drain loop, each callback invocation is
immediately followed by the `ReleaseBuffer` call for its packet. -/
theorem read_samples_loop_release_follows {ε : Type} (channels : Nat)
    (f : List Nat → Info → Except ε Unit) (steps : List PacketStep) :
    callbackFollowedByRelease (read_samples_loop channels f steps).2 = true := by
  induction steps with
  | nil => rfl
  | cons step rest ih =>
    rw [read_samples_loop]
    by_cases h0 : step.packet.frames = 0
    · simp [h0, callbackFollowedByRelease]
    · by_cases hg : step.getBufferHr = S_OK
      · by_cases hr : step.releaseBufferHr = S_OK
        · cases hf : f (packetSlice channels step.packet) (infoOfFlags step.packet.flags) with
          | ok u =>
            by_cases hn : step.nextSizeHr = S_OK
            · simp [h0, winapi_result, hg, hr, hn, hf, callbackFollowedByRelease_pair, ih]
            · simp [h0, winapi_result, hg, hr, hn, hf, callbackFollowedByRelease]
          | error e =>
            simp [h0, winapi_result, hg, hr, hf, callbackFollowedByRelease]
        · simp [h0, winapi_result, hg, hr, callbackFollowedByRelease]
      · simp [h0, winapi_result, hg, callbackFollowedByRelease]

/-- Helper: when every `ReleaseBuffer` call succeeds, a callback-error
event in the trace forces the loop's result to be exactly that error
wrapped as `ReadSamplesError.E`. -/
theorem read_samples_loop_error_prop {ε : Type} (channels : Nat)
    (f : List Nat → Info → Except ε Unit) (steps : List PacketStep)
    (hrel : ∀ st ∈ steps, st.releaseBufferHr = S_OK)
    (data : List Nat) (info : Info) (e : ε)
    (hmem : ReadEvent.callback data info (Except.error e) ∈
      (read_samples_loop channels f steps).2) :
    (read_samples_loop channels f steps).1 = Except.error (ReadSamplesError.E e) := by
  induction steps with
  | nil => simp [read_samples_loop] at hmem
  | cons step rest ih =>
    have hr : step.releaseBufferHr = S_OK := hrel step (List.mem_cons_self _ _)
    have hrest : ∀ st ∈ rest, st.releaseBufferHr = S_OK :=
      fun st hst => hrel st (List.mem_cons_of_mem _ hst)
    rw [read_samples_loop] at hmem ⊢
    by_cases h0 : step.packet.frames = 0
    · simp [h0] at hmem
    · by_cases hg : step.getBufferHr = S_OK
      · cases hf : f (packetSlice channels step.packet) (infoOfFlags step.packet.flags) with
        | ok u =>
          by_cases hn : step.nextSizeHr = S_OK
          · simp [h0, winapi_result, hg, hr, hn, hf] at hmem ⊢
            exact ih hrest hmem
          · simp [h0, winapi_result, hg, hr, hn, hf] at hmem
        | error e' =>
          simp [h0, winapi_result, hg, hr, hf] at hmem ⊢
          obtain ⟨-, -, he⟩ := hmem
          rw [he]
      · simp [h0, winapi_result, hg] at hmem


/-- C3 (amended): in every `read_samples` run, each callback invocation is
immediately followed by the `ReleaseBuffer` call for its packet, and —
provided the `ReleaseBuffer` calls succeed — a callback error `E` is
returned to the caller exactly as `ReadSamplesError::E(E)`. -/
theorem read_samples_callback_error_after_release {ε : Type}
    (s : AudioCaptureState) (w : CaptureWorld)
    (f : List Nat → Info → Except ε Unit)
    (hrel : ∀ st ∈ w.steps, st.releaseBufferHr = S_OK) :
    callbackFollowedByRelease (read_samples s w f).2 = true ∧
    ∀ data info e,
      ReadEvent.callback data info (Except.error e) ∈ (read_samples s w f).2 →
      (read_samples s w f).1 = Except.error (ReadSamplesError.E e) := by
  unfold read_samples
  by_cases hz : w.firstSizeHr = S_OK
  · simp only [winapi_result, hz, reduceIte]
    exact ⟨read_samples_loop_release_follows s.channels f w.steps,
      fun data info e hmem =>
        read_samples_loop_error_prop s.channels f w.steps hrel data info e hmem⟩
  · simp [winapi_result, hz, callbackFollowedByRelease]

/-- Witness for C3's amended claim: one pending packet, an always-failing
callback, all native calls succeeding. -/
theorem read_samples_callback_error_after_release_witness :
    callbackFollowedByRelease (read_samples stateOk wCbErr cbFail).2 = true ∧
    (read_samples stateOk wCbErr cbFail).1 =
      Except.error (ReadSamplesError.E ()) :=
  ⟨(read_samples_callback_error_after_release stateOk wCbErr cbFail (by decide)).1,
    (read_samples_callback_error_after_release stateOk wCbErr cbFail (by decide)).2
      (packetSlice stateOk.channels pkt1) (infoOfFlags pkt1.flags) () (by decide)⟩

/-- C3 (counterexample to the claim as stated): when the packet's
`ReleaseBuffer` call itself fails (HRESULT `1`), `read_samples` still
performs the release call but returns the release's native error, not the
callback's error. -/
theorem read_samples_release_failure_supersedes_callback_error :
    (read_samples stateOk wRelFail cbFail).1 =
      Except.error (ReadSamplesError.winError ⟨1⟩) ∧
    (read_samples stateOk wRelFail cbFail).1 ≠
      Except.error (ReadSamplesError.E ()) ∧
    ReadEvent.release 1 ∈ (read_samples stateOk wRelFail cbFail).2 := by
  decide

/-- Helper: with an always-succeeding callback and an all-success native
world, the drain loop processes every pending packet in order, emitting
one callback (with the packet's sample slice and flag-derived `Info`) and
one release per packet, and ends in `Ok`. -/
theorem read_samples_loop_all_ok {ε : Type} (channels : Nat)
    (f : List Nat → Info → Except ε Unit) (steps : List PacketStep)
    (hsteps : ∀ st ∈ steps, st.getBufferHr = S_OK ∧ st.releaseBufferHr = S_OK ∧
      st.nextSizeHr = S_OK ∧ 0 < st.packet.frames)
    (hcb : ∀ data info, f data info = Except.ok ()) :
    read_samples_loop channels f steps =
      (Except.ok (), steps.flatMap fun st =>
        [ReadEvent.callback (packetSlice channels st.packet)
          (infoOfFlags st.packet.flags) (Except.ok ()),
         ReadEvent.release st.packet.frames]) := by
  induction steps with
  | nil => rfl
  | cons step rest ih =>
    obtain ⟨hg, hr, hn, hfr⟩ := hsteps step (List.mem_cons_self _ _)
    have hrest : ∀ st ∈ rest, st.getBufferHr = S_OK ∧ st.releaseBufferHr = S_OK ∧
        st.nextSizeHr = S_OK ∧ 0 < st.packet.frames :=
      fun st hst => hsteps st (List.mem_cons_of_mem _ hst)
    rw [read_samples_loop]
    simp [Nat.pos_iff_ne_zero.mp hfr, winapi_result, hg, hr, hn, hcb,
      ih hrest, List.flatMap_cons]

/-- C6: a single `read_samples` call with an always-succeeding callback
drains every pending packet: it returns `Ok`, invokes the callback exactly
once per packet — with the packet's `frames × channels` 32-bit sample
slice and an `Info` whose booleans are the packet's bit flags — releases
each packet's buffer, and the slice length is `channels × frames`. -/
theorem read_samples_drains_all_packets {ε : Type} (s : AudioCaptureState)
    (w : CaptureWorld) (f : List Nat → Info → Except ε Unit)
    (hfirst : w.firstSizeHr = S_OK)
    (hsteps : ∀ st ∈ w.steps, st.getBufferHr = S_OK ∧ st.releaseBufferHr = S_OK ∧
      st.nextSizeHr = S_OK ∧ 0 < st.packet.frames)
    (hcb : ∀ data info, f data info = Except.ok ()) :
    read_samples s w f =
      (Except.ok (), w.steps.flatMap fun st =>
        [ReadEvent.callback (packetSlice s.channels st.packet)
          (infoOfFlags st.packet.flags) (Except.ok ()),
         ReadEvent.release st.packet.frames]) ∧
    ∀ st ∈ w.steps,
      (packetSlice s.channels st.packet).length = s.channels * st.packet.frames := by
  constructor
  · unfold read_samples
    simp only [winapi_result, hfirst, reduceIte]
    exact read_samples_loop_all_ok s.channels f w.steps hsteps hcb
  · intro st _
    simp [packetSlice, Nat.mul_comm]

/-- Witness for C6: two pending packets (3 frames flagged silent, then
1 frame flagged discontinuity+timestamp-error) are drained in one call on
a 2-channel instance. -/
theorem read_samples_drains_all_packets_witness :
    read_samples stateOk wDrain (fun _ _ => Except.ok (ε := Unit) ()) =
      (Except.ok (),
        [ReadEvent.callback [0, 1, 2, 3, 4, 5] ⟨true, false, false⟩ (Except.ok ()),
         ReadEvent.release 3,
         ReadEvent.callback [9, 9] ⟨false, true, true⟩ (Except.ok ()),
         ReadEvent.release 1]) ∧
    ∀ st ∈ wDrain.steps,
      (packetSlice stateOk.channels st.packet).length =
        stateOk.channels * st.packet.frames := by
  have h := read_samples_drains_all_packets stateOk wDrain
    (fun _ _ => Except.ok (ε := Unit) ()) rfl (by decide) (fun _ _ => rfl)
  refine ⟨?_, h.2⟩
  rw [h.1]
  decide

/-! ### Theorems: purity of `format` -/

/-- C8: `format` is pure and deterministic — its result depends only on
the stored mix-format descriptor, two calls on the same state return equal
results, the borrowed state is returned unchanged, and the native-call
trace is empty. -/
theorem format_method_pure (s t : AudioCaptureState)
    (h : s.wave_format = t.wave_format) :
    (format_method s).1 = (format_method t).1 ∧
    (format_method s).2.1 = s ∧
    (format_method s).2.2 = [] ∧
    (format_method ((format_method s).2.1)).1 = (format_method s).1 := by
  simp [format_method, h]

/-- Witness for C8 at the all-success instance. -/
theorem format_method_pure_witness :
    (format_method stateOk).1 = (format_method stateOk).1 ∧
    (format_method stateOk).2.1 = stateOk ∧
    (format_method stateOk).2.2 = [] ∧
    (format_method ((format_method stateOk).2.1)).1 = (format_method stateOk).1 :=
  format_method_pure stateOk stateOk rfl

end AC
